import Mathlib

/-!
Verification of the chunked COVID-19 case ETL pipeline (`etl.py`) of
`jdanussi/data-pipeline-covid19-etl`.

The embedding models:
* a raw CSV chunk as a header (list of column names) plus rows, each row a
  lookup function from column name to an optional cell value (a cell is
  `none` when the column is absent from the header or the value is missing,
  mirroring pandas `NaN`);
* `pd.DataFrame(df, columns=columns)` as `project` (a column absent from the
  header yields all-missing values, the documented pandas behaviour);
* `df.rename(columns = {...})` as `renameCols`;
* the per-chunk filter/dedup/coerce sequence of the `for df in pd.read_csv`
  loop as `transformChunk`;
* `df['age'].astype('int64')` as `coerceAges`, failing when any remaining
  age value does not parse as an integer;
* the whole chunk loop with its append to the sink as `runLoad`;
* the post-load `DELETE FROM covid19_case a USING (...)` statement as
  `deleteDupCases` on a list of `(covid_case_id, covid_case_csv_id)` rows;
* `download_from_aws` as a function of the abstract outcome of
  `s3.download_file`, including the fact that the module never imports
  `NoCredentialsError`, so evaluating the second `except` clause raises
  `NameError`.
-/

namespace Etl

/-! ### Integer parsing (model of coercing a cell value to int64) -/

/-- Value of a decimal digit character, `none` for a non-digit. -/
def digitVal (c : Char) : Option Nat :=
  if '0' ≤ c ∧ c ≤ '9' then some (c.toNat - '0'.toNat) else none

/-- Parse a nonempty list of decimal digit characters as a natural number. -/
def parseNatDigits (l : List Char) : Option Nat :=
  match l with
  | [] => none
  | _ :: _ => l.foldl (fun acc c => acc.bind fun n => (digitVal c).map fun d => n * 10 + d)
      (some 0)

/-- Parse a string as an integer: optional leading minus sign followed by
decimal digits.  Models the conversion performed by `astype('int64')` on a
cell value; a value that does not parse raises a conversion error. -/
def parseInt (s : String) : Option Int :=
  match s.data with
  | '-' :: rest => (parseNatDigits rest).map fun n => -(n : Int)
  | l => (parseNatDigits l).map fun n => (n : Int)

/-! ### Data model -/

/-- A raw CSV row: cell value by source column name (`none` = missing). -/
def RawRow := String → Option String

/-- The fixed projection of 13 source columns (`columns` list in `etl.py`). -/
def sourceColumns : List String :=
  ["id_evento_caso", "sexo", "edad", "fecha_inicio_sintomas", "fecha_apertura",
   "fecha_fallecimiento", "asistencia_respiratoria_mecanica", "carga_provincia_id",
   "clasificacion_resumen", "residencia_provincia_id", "fecha_diagnostico",
   "residencia_departamento_id", "ultima_actualizacion"]

/-- The projected record with source column names
(`pd.DataFrame(df, columns=columns)` output). -/
structure SrcRow where
  id_evento_caso : Option String
  sexo : Option String
  edad : Option String
  fecha_inicio_sintomas : Option String
  fecha_apertura : Option String
  fecha_fallecimiento : Option String
  asistencia_respiratoria_mecanica : Option String
  carga_provincia_id : Option String
  clasificacion_resumen : Option String
  residencia_provincia_id : Option String
  fecha_diagnostico : Option String
  residencia_departamento_id : Option String
  ultima_actualizacion : Option String
deriving DecidableEq

/-- The renamed record (`df.rename(columns = {...})` output). -/
structure CaseRow where
  covid_case_csv_id : Option String
  gender_id : Option String
  age : Option String
  symptoms_start_date : Option String
  registration_date : Option String
  death_date : Option String
  respiratory_assistance : Option String
  registration_state_id : Option String
  clasification : Option String
  residence_state_id : Option String
  diagnosis_date : Option String
  residence_department_id : Option String
  last_update : Option String
deriving DecidableEq

/-- A cleaned record appended to `covid19_case`: the age column has been
replaced by its int64 coercion, every other column is carried unchanged. -/
structure CleanRow where
  covid_case_csv_id : Option String
  gender_id : Option String
  age : Int
  symptoms_start_date : Option String
  registration_date : Option String
  death_date : Option String
  respiratory_assistance : Option String
  registration_state_id : Option String
  clasification : Option String
  residence_state_id : Option String
  diagnosis_date : Option String
  residence_department_id : Option String
  last_update : Option String
deriving DecidableEq

/-- Reading one cell under column selection: a column absent from the header
yields a missing value in every row. -/
def cell (header : List String) (r : RawRow) (c : String) : Option String :=
  if c ∈ header then r c else none

/-- Model of `pd.DataFrame(df, columns=columns)`: keep only the 13 source
columns; a column absent from the header yields a missing value in every
row. -/
def project (header : List String) (r : RawRow) : SrcRow where
  id_evento_caso := cell header r ("id_evento_caso")
  sexo := cell header r ("sexo")
  edad := cell header r ("edad")
  fecha_inicio_sintomas := cell header r ("fecha_inicio_sintomas")
  fecha_apertura := cell header r ("fecha_apertura")
  fecha_fallecimiento := cell header r ("fecha_fallecimiento")
  asistencia_respiratoria_mecanica := cell header r ("asistencia_respiratoria_mecanica")
  carga_provincia_id := cell header r ("carga_provincia_id")
  clasificacion_resumen := cell header r ("clasificacion_resumen")
  residencia_provincia_id := cell header r ("residencia_provincia_id")
  fecha_diagnostico := cell header r ("fecha_diagnostico")
  residencia_departamento_id := cell header r ("residencia_departamento_id")
  ultima_actualizacion := cell header r ("ultima_actualizacion")

/-- Model of the rename step: the fixed source→target column renaming. -/
def renameCols (r : SrcRow) : CaseRow where
  covid_case_csv_id := r.id_evento_caso
  gender_id := r.sexo
  age := r.edad
  symptoms_start_date := r.fecha_inicio_sintomas
  registration_date := r.fecha_apertura
  death_date := r.fecha_fallecimiento
  respiratory_assistance := r.asistencia_respiratoria_mecanica
  registration_state_id := r.carga_provincia_id
  clasification := r.clasificacion_resumen
  residence_state_id := r.residencia_provincia_id
  diagnosis_date := r.fecha_diagnostico
  residence_department_id := r.residencia_departamento_id
  last_update := r.ultima_actualizacion

/-- Replace the age column of a row by its coerced integer value, all other
columns unchanged (the effect of `df['age'] = df['age'].astype('int64')` on
one row). -/
def mkClean (r : CaseRow) (a : Int) : CleanRow where
  covid_case_csv_id := r.covid_case_csv_id
  gender_id := r.gender_id
  age := a
  symptoms_start_date := r.symptoms_start_date
  registration_date := r.registration_date
  death_date := r.death_date
  respiratory_assistance := r.respiratory_assistance
  registration_state_id := r.registration_state_id
  clasification := r.clasification
  residence_state_id := r.residence_state_id
  diagnosis_date := r.diagnosis_date
  residence_department_id := r.residence_department_id
  last_update := r.last_update

/-- The pandas slice `s.str[:4]` on a cell value: the first 4 characters of
the string (Python slices by code point; a string shorter than 4 characters
is returned whole). -/
def strSlice4 (s : String) : String := String.mk (s.data.take 4)

/-! ### The per-chunk transform -/

/-- Errors raised during chunk processing.  `typeConversion` is raised by the
age coercion; `schemaError` is the missing-column failure the spec describes
for a reimplementation (the statement below settle whether the code ever
raises it). -/
inductive EtlError where
  | typeConversion
  | schemaError
deriving DecidableEq

/-- Model of the drop-duplicates step on covid_case_csv_id, keeping the first
occurrence in file order; `seen` is the set of key values already kept. -/
def dedupAux (seen : List (Option String)) : List CaseRow → List CaseRow
  | [] => []
  | r :: rs =>
    if r.covid_case_csv_id ∈ seen then dedupAux seen rs
    else r :: dedupAux (r.covid_case_csv_id :: seen) rs

/-- Per-chunk dedup on `covid_case_csv_id`, first occurrence wins. -/
def dedupByKey (l : List CaseRow) : List CaseRow := dedupAux [] l

/-- Model of the age coercion over the remaining rows: every age value must
parse as an integer, otherwise the chunk fails with a conversion error. -/
def coerceAges : List CaseRow → Except EtlError (List CleanRow)
  | [] => .ok []
  | r :: rs =>
    match r.age.bind parseInt with
    | some a =>
      match coerceAges rs with
      | .ok out => .ok (mkClean r a :: out)
      | .error e => .error e
    | none => .error .typeConversion

/-- The body of the `for df in pd.read_csv(..., chunksize=30000)` loop up to
(and excluding) the append: projection, rename, drop missing ids, year
filter, per-chunk dedup, zero-state filter, missing-age filter, age
coercion.  Each `let df := ...` mirrors one statement of `etl.py`. -/
def transformChunk (header : List String) (rows : List RawRow) :
    Except EtlError (List CleanRow) :=
  let df := rows.map (fun r => project header r)
  let df := df.map renameCols
  let df := df.filter (fun r => r.covid_case_csv_id.isSome)
  let df := df.filter (fun r =>
    match r.registration_date with
    | some s => strSlice4 s == "2022"
    | none => false)
  let df := dedupByKey df
  let df := df.filter (fun r => !(r.registration_state_id.bind parseInt == some (0 : Int)))
  let df := df.filter (fun r => r.age.isSome)
  coerceAges df

/-! Named versions of the individual steps, used to state order-of-operations
and idempotence properties. -/

/-- Step 3: `df.dropna(subset=['covid_case_csv_id'])`. -/
def dropMissingId (l : List CaseRow) : List CaseRow :=
  l.filter (fun r => r.covid_case_csv_id.isSome)

/-- The year-filter keep condition: the first 4 characters of the
registration date equal the target year `"2022"`; a missing date is
dropped (pandas `NaN != '2022'` is true, so the row is dropped). -/
def keepYear (d : Option String) : Bool :=
  match d with
  | some s => strSlice4 s == "2022"
  | none => false

/-- Step 4: `df.drop(df[df.registration_date.str[:4] != '2022'].index)`. -/
def yearFilter (l : List CaseRow) : List CaseRow :=
  l.filter (fun r => keepYear r.registration_date)

/-- The zero-state sentinel test of step 6 (`df['registration_state_id'] == 0`). -/
def isZeroState (v : Option String) : Bool :=
  v.bind parseInt == some (0 : Int)

/-- Step 6: `df.drop(df[df['registration_state_id'] == 0].index)`. -/
def zeroStateFilter (l : List CaseRow) : List CaseRow :=
  l.filter (fun r => !isZeroState r.registration_state_id)

/-- Step 7a: `df.dropna(subset=['age'])`. -/
def dropMissingAge (l : List CaseRow) : List CaseRow :=
  l.filter (fun r => r.age.isSome)

/-- The five record-dropping steps of the chunk transform (identifier, year,
dedup, zero-state, missing-age), as one function on a list of case rows. -/
def filterSeq (l : List CaseRow) : List CaseRow :=
  dropMissingAge (zeroStateFilter (dedupByKey (yearFilter (dropMissingId l))))

/-- The rows of a chunk surviving the identifier filter and the year filter,
in file order: the list on which the per-chunk dedup operates. -/
def survivors (header : List String) (rows : List RawRow) : List CaseRow :=
  yearFilter (dropMissingId ((rows.map (project header)).map renameCols))

/-- All filters of the chunk transform, before the age coercion. -/
def filteredRows (header : List String) (rows : List RawRow) : List CaseRow :=
  dropMissingAge (zeroStateFilter (dedupByKey (survivors header rows)))

theorem transformChunk_eq (header : List String) (rows : List RawRow) :
    transformChunk header rows = coerceAges (filteredRows header rows) := rfl

/-! ### The chunk loop and the sink -/

/-- Transform every chunk, stopping at the first failing chunk. -/
def transformAll (header : List String) : List (List RawRow) →
    Except EtlError (List (List CleanRow))
  | [] => .ok []
  | c :: cs =>
    match transformChunk header c with
    | .ok o =>
      match transformAll header cs with
      | .ok os => .ok (o :: os)
      | .error e => .error e
    | .error e => .error e

/-- The whole chunk loop: each chunk is transformed and its cleaned rows are
appended to the sink before the next chunk is read.  A failure aborts the
run: the error is re-raised (`except: raise`), no later chunk is read, and
the rows already appended stay in the sink (no rollback). -/
def runLoad (header : List String) : List (List RawRow) →
    List CleanRow × Option EtlError
  | [] => ([], none)
  | c :: cs =>
    match transformChunk header c with
    | .ok o =>
      let rest := runLoad header cs
      (o ++ rest.1, rest.2)
    | .error e => ([], some e)

/-! ### The post-load duplicate deletion (`DELETE FROM covid19_case a USING ...`) -/

/-- A row of the `covid19_case` table as seen by the cleanup statement: the
surrogate key `covid_case_id` and the external key `covid_case_csv_id`. -/
abbrev CaseTable := List (Int × String)

/-- The rows of the table sharing a given `covid_case_csv_id`. -/
def sameKeyRows (t : CaseTable) (k : String) : List (Int × String) :=
  t.filter (fun r => r.2 == k)

/-- Minimum of a nonempty list of integers (SQL `MIN`). -/
def listMin : List Int → Option Int
  | [] => none
  | x :: xs => some (xs.foldl min x)

/-- The SQL MIN of covid_case_id over a covid_case_csv_id group. -/
def groupMin (t : CaseTable) (k : String) : Option Int :=
  listMin ((sameKeyRows t k).map Prod.fst)

/-- The keep condition of the DELETE: row `a` is deleted exactly when its
`covid_case_csv_id` group has more than one row (`HAVING COUNT(*) > 1`) and
`a.covid_case_id` differs from the group's minimum.  The subquery is
evaluated against the table state at the start of the statement. -/
def keepCase (t : CaseTable) (a : Int × String) : Bool :=
  !(decide (1 < (sameKeyRows t a.2).length) && !(groupMin t a.2 == some a.1))

/-- The post-load cleanup statement: delete every non-minimal row of every
duplicated `covid_case_csv_id` group. -/
def deleteDupCases (t : CaseTable) : CaseTable :=
  t.filter (keepCase t)

/-! ### `download_from_aws` -/

/-- Python-level exceptions relevant to `download_from_aws`.
`nameError` models the `NameError` raised when an `except` clause mentions
an identifier that is not bound in the module. -/
inductive PyExc where
  | fileNotFound
  | noCredentials
  | nameError
  | other
deriving DecidableEq

/-- Outcome of the underlying `s3.download_file(bucket, s3_file, local_file)`
call: either it succeeds or it raises some exception. -/
inductive S3Outcome where
  | success
  | raises (e : PyExc)
deriving DecidableEq

/-- Model of download_from_aws, as a function of the outcome of the
s3 download call.
The first `except FileNotFoundError` clause returns `False`.  The second
clause reads `except NoCredentialsError:`, but `etl.py` never imports
`NoCredentialsError` (its imports are pandas, sqlalchemy, os, zipfile,
boto3), so when any exception other than `FileNotFoundError` is in flight,
evaluating that clause raises `NameError` instead of returning `False`. -/
def download_from_aws (outcome : S3Outcome) : Except PyExc Bool :=
  match outcome with
  | .success => .ok true
  | .raises .fileNotFound => .ok false
  | .raises _ => .error .nameError

/-! ### Lemmas about the per-chunk dedup -/

theorem dedupAux_subset {seen : List (Option String)} {l : List CaseRow} {a : CaseRow}
    (h : a ∈ dedupAux seen l) : a ∈ l := by
  induction l generalizing seen with
  | nil => simp [dedupAux] at h
  | cons r rs ih =>
    rw [dedupAux] at h
    split at h
    · exact List.mem_cons_of_mem _ (ih h)
    · rcases List.mem_cons.mp h with h | h
      · exact h ▸ List.mem_cons_self _ _
      · exact List.mem_cons_of_mem _ (ih h)

theorem mem_dedupAux_key_notin {seen : List (Option String)} {l : List CaseRow}
    {a : CaseRow} (h : a ∈ dedupAux seen l) : a.covid_case_csv_id ∉ seen := by
  induction l generalizing seen with
  | nil => simp [dedupAux] at h
  | cons r rs ih =>
    rw [dedupAux] at h
    split at h
    · exact ih h
    · rcases List.mem_cons.mp h with h | h
      · subst h; assumption
      · intro hmem
        exact ih h (List.mem_cons_of_mem _ hmem)

theorem dedupAux_pairwise (seen : List (Option String)) (l : List CaseRow) :
    (dedupAux seen l).Pairwise
      (fun a b => a.covid_case_csv_id ≠ b.covid_case_csv_id) := by
  induction l generalizing seen with
  | nil => simp [dedupAux]
  | cons r rs ih =>
    rw [dedupAux]
    split
    · exact ih seen
    · refine List.pairwise_cons.mpr ⟨?_, ih _⟩
      intro b hb hkey
      exact mem_dedupAux_key_notin hb (hkey ▸ List.mem_cons_self _ _)

theorem dedupAux_eq_self {l : List CaseRow} (seen : List (Option String))
    (hp : l.Pairwise (fun a b => a.covid_case_csv_id ≠ b.covid_case_csv_id))
    (hs : ∀ a ∈ l, a.covid_case_csv_id ∉ seen) : dedupAux seen l = l := by
  induction l generalizing seen with
  | nil => rfl
  | cons r rs ih =>
    rw [dedupAux, if_neg (hs r (List.mem_cons_self _ _))]
    congr 1
    rcases List.pairwise_cons.mp hp with ⟨hr, hrs⟩
    refine ih _ hrs ?_
    intro a ha
    intro hmem
    rcases List.mem_cons.mp hmem with h | h
    · exact hr a ha h.symm
    · exact hs a (List.mem_cons_of_mem _ ha) h

theorem dedupAux_find? {seen : List (Option String)} {l : List CaseRow} {a : CaseRow}
    (h : a ∈ dedupAux seen l) :
    l.find? (fun x => x.covid_case_csv_id == a.covid_case_csv_id) = some a := by
  induction l generalizing seen with
  | nil => simp [dedupAux] at h
  | cons r rs ih =>
    rw [dedupAux] at h
    split at h
    · rename_i hseen
      have hne : ¬((fun x => x.covid_case_csv_id == a.covid_case_csv_id) r) = true := by
        simp only [beq_iff_eq]
        intro he
        exact mem_dedupAux_key_notin h (he ▸ hseen)
      rw [@List.find?_cons_of_neg CaseRow
        (fun x => x.covid_case_csv_id == a.covid_case_csv_id) r rs hne]
      exact ih h
    · rename_i hseen
      rcases List.mem_cons.mp h with h | h
      · subst h
        exact List.find?_cons_of_pos _ (by simp)
      · have hnotin := mem_dedupAux_key_notin h
        have hne : ¬((fun x => x.covid_case_csv_id == a.covid_case_csv_id) r) = true := by
          simp only [beq_iff_eq]
          intro he
          exact hnotin (he ▸ List.mem_cons_self _ _)
        rw [@List.find?_cons_of_neg CaseRow
          (fun x => x.covid_case_csv_id == a.covid_case_csv_id) r rs hne]
        exact ih h

theorem dedupByKey_subset {l : List CaseRow} {a : CaseRow}
    (h : a ∈ dedupByKey l) : a ∈ l := dedupAux_subset h

theorem dedupByKey_pairwise (l : List CaseRow) :
    (dedupByKey l).Pairwise
      (fun a b => a.covid_case_csv_id ≠ b.covid_case_csv_id) :=
  dedupAux_pairwise [] l

theorem dedupByKey_eq_self {l : List CaseRow}
    (hp : l.Pairwise (fun a b => a.covid_case_csv_id ≠ b.covid_case_csv_id)) :
    dedupByKey l = l :=
  dedupAux_eq_self [] hp (by simp)

theorem dedupByKey_find? {l : List CaseRow} {a : CaseRow} (h : a ∈ dedupByKey l) :
    l.find? (fun x => x.covid_case_csv_id == a.covid_case_csv_id) = some a :=
  dedupAux_find? h

/-! ### Lemmas about the age coercion -/

theorem coerceAges_ok_forall2 {l : List CaseRow} {out : List CleanRow}
    (h : coerceAges l = .ok out) :
    List.Forall₂ (fun r c => r.age.bind parseInt = some c.age ∧ c = mkClean r c.age)
      l out := by
  induction l generalizing out with
  | nil =>
    cases h
    exact List.Forall₂.nil
  | cons r rs ih =>
    rw [coerceAges] at h
    cases hp : r.age.bind parseInt with
    | none => rw [hp] at h; cases h
    | some a =>
      rw [hp] at h
      cases hrs : coerceAges rs with
      | error e => rw [hrs] at h; cases h
      | ok os =>
        rw [hrs] at h
        cases h
        exact List.Forall₂.cons ⟨hp, rfl⟩ (ih hrs)

theorem coerceAges_ok_of_forall {l : List CaseRow}
    (h : ∀ r ∈ l, (r.age.bind parseInt).isSome) :
    ∃ out, coerceAges l = .ok out := by
  induction l with
  | nil => exact ⟨[], rfl⟩
  | cons r rs ih =>
    rcases ih (fun x hx => h x (List.mem_cons_of_mem _ hx)) with ⟨os, hos⟩
    have hr := h r (List.mem_cons_self _ _)
    cases hp : r.age.bind parseInt with
    | none => rw [hp] at hr; cases hr
    | some a =>
      exact ⟨mkClean r a :: os, by rw [coerceAges, hp, hos]⟩

theorem coerceAges_error_of_mem {l : List CaseRow}
    (h : ∃ r ∈ l, r.age.bind parseInt = none) :
    coerceAges l = .error .typeConversion := by
  induction l with
  | nil => simp at h
  | cons r rs ih =>
    rcases h with ⟨x, hx, hbad⟩
    rcases List.mem_cons.mp hx with h | h
    · subst h
      rw [coerceAges, hbad]
    · rw [coerceAges]
      cases hp : r.age.bind parseInt with
      | none => rfl
      | some a => rw [ih ⟨x, h, hbad⟩]

/-! ### Lemmas relating `Forall₂` facts to the output list -/

theorem forall2_mem_right {R : CaseRow → CleanRow → Prop} {l : List CaseRow}
    {out : List CleanRow} (h : List.Forall₂ R l out) {c : CleanRow} (hc : c ∈ out) :
    ∃ r ∈ l, R r c := by
  induction h with
  | nil => cases hc
  | cons hr _ ih =>
    rcases List.mem_cons.mp hc with hc | hc
    · exact ⟨_, List.mem_cons_self _ _, hc ▸ hr⟩
    · rcases ih hc with ⟨r, hrl, hR⟩
      exact ⟨r, List.mem_cons_of_mem _ hrl, hR⟩

theorem forall2_key_map {l : List CaseRow} {out : List CleanRow}
    (h : List.Forall₂ (fun r c => r.age.bind parseInt = some c.age ∧ c = mkClean r c.age)
      l out) :
    out.map (fun c => c.covid_case_csv_id) = l.map (fun r => r.covid_case_csv_id) := by
  induction h with
  | nil => rfl
  | cons hr _ ih =>
    rcases hr with ⟨-, hc⟩
    have hkey : _ = _ := congrArg CleanRow.covid_case_csv_id hc
    simp only [List.map_cons, ih, hkey, mkClean]

/-! ### Lemmas about the filter pipeline -/

theorem mem_filteredRows {header : List String} {rows : List RawRow} {r : CaseRow}
    (hr : r ∈ filteredRows header rows) :
    r ∈ dedupByKey (survivors header rows) ∧
      isZeroState r.registration_state_id = false ∧ r.age.isSome = true := by
  simp only [filteredRows, dropMissingAge, zeroStateFilter, List.mem_filter,
    Bool.not_eq_true'] at hr
  exact ⟨hr.1.1, hr.1.2, hr.2⟩

theorem mem_survivors {header : List String} {rows : List RawRow} {r : CaseRow}
    (hr : r ∈ survivors header rows) :
    r ∈ (rows.map (project header)).map renameCols ∧
      r.covid_case_csv_id.isSome = true ∧ keepYear r.registration_date = true := by
  simp only [survivors, yearFilter, dropMissingId, List.mem_filter] at hr
  exact ⟨hr.1.1, hr.1.2, hr.2⟩

theorem filteredRows_pairwise (header : List String) (rows : List RawRow) :
    (filteredRows header rows).Pairwise
      (fun a b => a.covid_case_csv_id ≠ b.covid_case_csv_id) := by
  have h1 := dedupByKey_pairwise (survivors header rows)
  have h2 : List.Sublist (zeroStateFilter (dedupByKey (survivors header rows)))
      (dedupByKey (survivors header rows)) := List.filter_sublist _
  have h3 : List.Sublist (filteredRows header rows)
      (zeroStateFilter (dedupByKey (survivors header rows))) := List.filter_sublist _
  exact List.Pairwise.sublist (h3.trans h2) h1

theorem keepYear_some {s : String} (h : keepYear (some s) = true) :
    strSlice4 s = "2022" := by
  simpa [keepYear] using h

theorem mem_filterSeq {l : List CaseRow} {a : CaseRow} (h : a ∈ filterSeq l) :
    a.covid_case_csv_id.isSome = true ∧ keepYear a.registration_date = true ∧
      isZeroState a.registration_state_id = false ∧ a.age.isSome = true := by
  simp only [filterSeq, dropMissingAge, zeroStateFilter, List.mem_filter,
    Bool.not_eq_true'] at h
  have hdd := dedupByKey_subset h.1.1
  simp only [yearFilter, dropMissingId, List.mem_filter] at hdd
  exact ⟨hdd.1.2, hdd.2, h.1.2, h.2⟩

theorem filterSeq_pairwise (l : List CaseRow) :
    (filterSeq l).Pairwise (fun a b => a.covid_case_csv_id ≠ b.covid_case_csv_id) := by
  have h1 := dedupByKey_pairwise (yearFilter (dropMissingId l))
  have h2 : List.Sublist (zeroStateFilter (dedupByKey (yearFilter (dropMissingId l))))
      (dedupByKey (yearFilter (dropMissingId l))) := List.filter_sublist _
  have h3 : List.Sublist (filterSeq l)
      (zeroStateFilter (dedupByKey (yearFilter (dropMissingId l)))) :=
    List.filter_sublist _
  exact List.Pairwise.sublist (h3.trans h2) h1

/-! ### Sample data used by the witnesses -/

/-- Build a raw CSV row from an association list of cells. -/
def mkRow (ps : List (String × String)) : RawRow := fun c => List.lookup c ps

/-- A well-formed case row: id 1, age 45, year 2022, state 5. -/
def sampleRow1 : RawRow :=
  mkRow [("id_evento_caso", "1"), ("edad", "45"), ("fecha_apertura", "2022-01-01"),
         ("carga_provincia_id", "5")]

/-- A duplicate of id 1 later in file order, with a different age and state. -/
def sampleRow1b : RawRow :=
  mkRow [("id_evento_caso", "1"), ("edad", "50"), ("fecha_apertura", "2022-02-01"),
         ("carga_provincia_id", "3")]

/-- Id 2, missing age. -/
def sampleRow2 : RawRow :=
  mkRow [("id_evento_caso", "2"), ("fecha_apertura", "2022-01-01"),
         ("carga_provincia_id", "1")]

/-- Id 3, wrong year. -/
def sampleRow3 : RawRow :=
  mkRow [("id_evento_caso", "3"), ("edad", "30"), ("fecha_apertura", "2021-12-31"),
         ("carga_provincia_id", "2")]

/-- Id 4, non-numeric age on a row with the zero state sentinel. -/
def sampleRow4 : RawRow :=
  mkRow [("id_evento_caso", "4"), ("edad", "abc"), ("fecha_apertura", "2022-01-01"),
         ("carga_provincia_id", "0")]

/-- Id 5, non-numeric age on a row surviving every filter. -/
def sampleRow5 : RawRow :=
  mkRow [("id_evento_caso", "5"), ("edad", "abc"), ("fecha_apertura", "2022-01-01"),
         ("carga_provincia_id", "2")]

/-- The cleaned record produced from `sampleRow1`. -/
def sampleClean1 : CleanRow where
  covid_case_csv_id := some ("1")
  gender_id := none
  age := 45
  symptoms_start_date := none
  registration_date := some ("2022-01-01")
  death_date := none
  respiratory_assistance := none
  registration_state_id := some ("5")
  clasification := none
  residence_state_id := none
  diagnosis_date := none
  residence_department_id := none
  last_update := none

/-! ### Claim theorems -/

/-- C1: for every chunk, every record appended to `covid19_case` has a
non-missing `covid_case_csv_id`, an age coming from a cell value parsed as a
64-bit integer (the `age` field of a `CleanRow` is an integer by
construction), a `registration_state_id` that is not 0, and a
`registration_date` whose first 4 characters equal the target year
`"2022"`. -/
theorem C1_emitted_record_invariants (header : List String) (rows : List RawRow)
    (out : List CleanRow) (h : transformChunk header rows = .ok out) :
    ∀ c ∈ out, c.covid_case_csv_id.isSome = true ∧
      isZeroState c.registration_state_id = false ∧
      (∃ s, c.registration_date = some s ∧ strSlice4 s = "2022") ∧
      (∃ t, parseInt t = some c.age) := by
  intro c hc
  rw [transformChunk_eq] at h
  rcases forall2_mem_right (coerceAges_ok_forall2 h) hc with ⟨r, hrl, hage, hcr⟩
  rcases mem_filteredRows hrl with ⟨hdd, hzero, hsomeAge⟩
  rcases mem_survivors (dedupByKey_subset hdd) with ⟨-, hid, hyear⟩
  have hkid : c.covid_case_csv_id = r.covid_case_csv_id :=
    congrArg CleanRow.covid_case_csv_id hcr
  have hkst : c.registration_state_id = r.registration_state_id :=
    congrArg CleanRow.registration_state_id hcr
  have hkdt : c.registration_date = r.registration_date :=
    congrArg CleanRow.registration_date hcr
  refine ⟨hkid ▸ hid, hkst ▸ hzero, ?_, ?_⟩
  · cases hd : r.registration_date with
    | none => rw [hd] at hyear; cases hyear
    | some s =>
      rw [hd] at hyear
      exact ⟨s, hkdt.trans hd, keepYear_some hyear⟩
  · cases ht : r.age with
    | none => rw [ht] at hsomeAge; cases hsomeAge
    | some t =>
      rw [ht] at hage
      exact ⟨t, hage⟩

/-- Witness for C1 at a concrete chunk. -/
theorem C1_emitted_record_invariants_witness :
    transformChunk sourceColumns [sampleRow1] = .ok [sampleClean1] ∧
      (sampleClean1.covid_case_csv_id.isSome = true ∧
        isZeroState sampleClean1.registration_state_id = false ∧
        (∃ s, sampleClean1.registration_date = some s ∧ strSlice4 s = "2022") ∧
        (∃ t, parseInt t = some sampleClean1.age)) :=
  ⟨by rfl, C1_emitted_record_invariants sourceColumns [sampleRow1] [sampleClean1]
    (by rfl) sampleClean1 (by simp)⟩

/-- C2: per chunk, no two appended records share a `covid_case_csv_id`, and
every appended record is the first occurrence, in file order, of its
identifier among the rows surviving the earlier filters (missing-identifier
drop and year filter). -/
theorem C2_per_chunk_dedup_first_wins (header : List String) (rows : List RawRow)
    (out : List CleanRow) (h : transformChunk header rows = .ok out) :
    out.Pairwise (fun a b => a.covid_case_csv_id ≠ b.covid_case_csv_id) ∧
      ∀ c ∈ out, ∃ r a,
        (survivors header rows).find?
          (fun x => x.covid_case_csv_id == c.covid_case_csv_id) = some r ∧
        r.age.bind parseInt = some a ∧ c = mkClean r a := by
  rw [transformChunk_eq] at h
  have hf := coerceAges_ok_forall2 h
  constructor
  · have hmap := forall2_key_map hf
    have hpw : ((filteredRows header rows).map
        (fun r => r.covid_case_csv_id)).Pairwise (fun a b => a ≠ b) :=
      List.pairwise_map.mpr (filteredRows_pairwise header rows)
    rw [← hmap] at hpw
    exact List.pairwise_map.mp hpw
  · intro c hc
    rcases forall2_mem_right hf hc with ⟨r, hrl, hage, hcr⟩
    rcases mem_filteredRows hrl with ⟨hdd, -, -⟩
    have hkid : c.covid_case_csv_id = r.covid_case_csv_id :=
      congrArg CleanRow.covid_case_csv_id hcr
    refine ⟨r, c.age, ?_, hage, hcr⟩
    rw [hkid]
    exact dedupByKey_find? hdd

/-- Witness for C2 at a chunk containing a duplicated identifier: of the two
rows with id 1, the first (age 45) is kept. -/
theorem C2_per_chunk_dedup_first_wins_witness :
    transformChunk sourceColumns [sampleRow1, sampleRow1b, sampleRow2, sampleRow3,
        sampleRow4] = .ok [sampleClean1] ∧
      ([sampleClean1].Pairwise
          (fun a b => a.covid_case_csv_id ≠ b.covid_case_csv_id) ∧
        ∀ c ∈ [sampleClean1], ∃ r a,
          (survivors sourceColumns [sampleRow1, sampleRow1b, sampleRow2, sampleRow3,
              sampleRow4]).find?
            (fun x => x.covid_case_csv_id == c.covid_case_csv_id) = some r ∧
          r.age.bind parseInt = some a ∧ c = mkClean r a) :=
  ⟨by rfl, C2_per_chunk_dedup_first_wins sourceColumns
    [sampleRow1, sampleRow1b, sampleRow2, sampleRow3, sampleRow4] [sampleClean1]
    (by rfl)⟩

/-- A header containing every projected column except `edad`. -/
def headerMissingEdad : List String :=
  ["id_evento_caso", "sexo", "fecha_inicio_sintomas", "fecha_apertura",
   "fecha_fallecimiento", "asistencia_respiratoria_mecanica", "carga_provincia_id",
   "clasificacion_resumen", "residencia_provincia_id", "fecha_diagnostico",
   "residencia_departamento_id", "ultima_actualizacion"]

/-- C3 counterexample: on a source file whose header lacks `edad`, the chunk
transform does not fail with a SchemaError; the projection silently yields
all-missing age values, every row is dropped by the missing-age filter, and
the chunk is appended as an empty batch. -/
theorem C3_counterexample_no_schema_error :
    transformChunk headerMissingEdad [sampleRow1] = .ok [] ∧
      transformChunk headerMissingEdad [sampleRow1] ≠ .error .schemaError := by
  refine ⟨rfl, ?_⟩
  intro h
  have h2 : (Except.ok [] : Except EtlError (List CleanRow)) = .error .schemaError := h
  exact Except.noConfusion h2

/-- C3 (amended): if a projected source column such as `edad` is absent from
the header, the pipeline does not fail: column selection silently produces
all-missing values for that column, and with `edad` absent every row is
dropped by the missing-age filter, so the chunk yields an empty batch with
no error. -/
theorem C3_missing_edad_silently_empty (header : List String)
    (hno : "edad" ∉ header) (rows : List RawRow) :
    transformChunk header rows = .ok [] := by
  rw [transformChunk_eq]
  have hage : ∀ r ∈ zeroStateFilter (dedupByKey (survivors header rows)),
      ¬(r.age.isSome = true) := by
    intro r hr
    have h1 := List.mem_of_mem_filter hr
    have h2 := dedupByKey_subset h1
    have hbase := (mem_survivors h2).1
    rcases List.mem_map.mp hbase with ⟨p, hp, hrp⟩
    rcases List.mem_map.mp hp with ⟨raw, -, hpr⟩
    have hnone : r.age = none := by
      rw [← hrp, ← hpr]
      simp [renameCols, project, cell, hno]
    simp [hnone]
  have hempty : filteredRows header rows = [] := by
    simp only [filteredRows, dropMissingAge]
    exact List.filter_eq_nil_iff.mpr hage
  rw [hempty]
  rfl

/-- Witness for the amended C3. -/
theorem C3_missing_edad_silently_empty_witness :
    ("edad" ∉ headerMissingEdad) ∧
      transformChunk headerMissingEdad [sampleRow1] = .ok [] :=
  ⟨by decide, C3_missing_edad_silently_empty headerMissingEdad (by decide) [sampleRow1]⟩

/-- C4: if a chunk contains a row that survives every filter and whose age
value does not parse as an integer, the age coercion fails and the whole run
aborts at that chunk: no later chunk contributes to the sink, and the
cleaned rows of the chunks already processed stay in the sink with no
rollback. -/
theorem C4_bad_age_aborts_run (header : List String) (pre : List (List RawRow))
    (c : List RawRow) (post : List (List RawRow)) (outs : List (List CleanRow))
    (h1 : transformAll header pre = .ok outs)
    (h2 : ∃ r ∈ filteredRows header c, r.age.bind parseInt = none) :
    runLoad header (pre ++ c :: post) = (outs.flatten, some .typeConversion) := by
  have hc : transformChunk header c = .error .typeConversion := by
    rw [transformChunk_eq]
    exact coerceAges_error_of_mem h2
  induction pre generalizing outs with
  | nil =>
    cases h1
    simp only [List.nil_append, runLoad, hc, List.flatten_nil]
  | cons p ps ih =>
    rw [transformAll] at h1
    cases hp : transformChunk header p with
    | error e => rw [hp] at h1; cases h1
    | ok o =>
      rw [hp] at h1
      cases hps : transformAll header ps with
      | error e => rw [hps] at h1; cases h1
      | ok os =>
        rw [hps] at h1
        cases h1
        have hrec := ih os hps
        simp only [List.cons_append, runLoad, hp]
        have hrec' : runLoad header (ps.append (c :: post)) =
            (os.flatten, some EtlError.typeConversion) := hrec
        rw [hrec', List.flatten_cons]

/-- Witness for C4: a good chunk is loaded, the second chunk holds a
surviving row with age `"abc"`, a third chunk follows; the run ends with the
first chunk's rows in the sink and a conversion error, the third chunk
untouched. -/
theorem C4_bad_age_aborts_run_witness :
    transformAll sourceColumns [[sampleRow1]] = .ok [[sampleClean1]] ∧
      (∃ r ∈ filteredRows sourceColumns [sampleRow5], r.age.bind parseInt = none) ∧
      runLoad sourceColumns ([[sampleRow1]] ++ [sampleRow5] :: [[sampleRow3]]) =
        ([[sampleClean1]].flatten, some .typeConversion) :=
  ⟨by rfl, by decide, C4_bad_age_aborts_run sourceColumns [[sampleRow1]] [sampleRow5]
    [[sampleRow3]] [[sampleClean1]] (by rfl) (by decide)⟩

/-- C6: the chunk transform performs, in this exact order: projection to the
13 source columns, rename, missing-identifier drop, year filter (rows whose
registration date is shorter than 4 characters or does not match are
dropped without error), per-chunk dedup, zero-state drop, missing-age drop
followed by the age coercion, and finally the append of the cleaned batch to
the sink before the next chunk is processed. -/
theorem C6_transform_step_order (header : List String) (rows : List RawRow) :
    (transformChunk header rows =
      coerceAges (dropMissingAge (zeroStateFilter (dedupByKey (yearFilter
        (dropMissingId ((rows.map (project header)).map renameCols))))))) ∧
      (∀ s : String, s.length < 4 → keepYear (some s) = false) ∧
      (∀ c cs o, transformChunk header c = .ok o →
        runLoad header (c :: cs) =
          (o ++ (runLoad header cs).1, (runLoad header cs).2)) := by
  refine ⟨rfl, ?_, ?_⟩
  · intro s hs
    have h1 : strSlice4 s ≠ "2022" := by
      intro he
      have hl : (s.data.take 4).length = ("2022" : String).length :=
        congrArg String.length he
      rw [List.length_take] at hl
      have hs' : s.data.length < 4 := hs
      have h4 : ("2022" : String).length = 4 := rfl
      omega
    simp only [keepYear, beq_eq_false_iff_ne, ne_eq]
    exact h1
  · intro c cs o h
    simp only [runLoad, h]

/-- Witness for C6: a 3-character date string is dropped by the year filter,
and a one-chunk run appends the chunk's cleaned rows to the sink. -/
theorem C6_transform_step_order_witness :
    ("202" : String).length < 4 ∧ keepYear (some ("202")) = false ∧
      transformChunk sourceColumns [sampleRow1] = .ok [sampleClean1] ∧
      runLoad sourceColumns ([sampleRow1] :: []) =
        ([sampleClean1] ++ (runLoad sourceColumns []).1,
          (runLoad sourceColumns []).2) :=
  ⟨by decide, (C6_transform_step_order sourceColumns []).2.1 ("202") (by decide),
    by rfl,
    (C6_transform_step_order sourceColumns []).2.2 [sampleRow1] [] [sampleClean1]
      (by rfl)⟩

/-- C7: the per-chunk filter sequence (missing-identifier drop, year filter,
dedup, zero-state drop, missing-age drop) is idempotent: applied to a chunk
that is already its own output, it returns that chunk unchanged. -/
theorem C7_filter_sequence_idempotent (l : List CaseRow) :
    filterSeq (filterSeq l) = filterSeq l := by
  have h1 : dropMissingId (filterSeq l) = filterSeq l :=
    List.filter_eq_self.mpr (fun a ha => (mem_filterSeq ha).1)
  have h2 : yearFilter (filterSeq l) = filterSeq l :=
    List.filter_eq_self.mpr (fun a ha => (mem_filterSeq ha).2.1)
  have h3 : dedupByKey (filterSeq l) = filterSeq l :=
    dedupByKey_eq_self (filterSeq_pairwise l)
  have h4 : zeroStateFilter (filterSeq l) = filterSeq l :=
    List.filter_eq_self.mpr (fun a ha => by
      have hz := (mem_filterSeq ha).2.2.1
      simp [hz])
  have h5 : dropMissingAge (filterSeq l) = filterSeq l :=
    List.filter_eq_self.mpr (fun a ha => (mem_filterSeq ha).2.2.2)
  show dropMissingAge (zeroStateFilter (dedupByKey (yearFilter
    (dropMissingId (filterSeq l))))) = filterSeq l
  rw [h1, h2, h3, h4, h5]

/-- C9: rows removed by the identifier, year, dedup, zero-state or
missing-age filters never reach the age coercion: a chunk in which every
non-parseable age lies on a filtered-out row is transformed without error. -/
theorem C9_filters_shield_age_coercion (header : List String) (c : List RawRow)
    (h : ∀ r ∈ filteredRows header c, (r.age.bind parseInt).isSome = true) :
    ∃ out, transformChunk header c = .ok out := by
  rw [transformChunk_eq]
  exact coerceAges_ok_of_forall h

/-- Witness for C9: a chunk with a row whose age is `"abc"` but whose
`registration_state_id` is 0 is silently dropped by the zero-state filter
and the chunk transforms without error. -/
theorem C9_filters_shield_age_coercion_witness :
    (∀ r ∈ filteredRows sourceColumns [sampleRow1, sampleRow4],
        (r.age.bind parseInt).isSome = true) ∧
      ∃ out, transformChunk sourceColumns [sampleRow1, sampleRow4] = .ok out :=
  ⟨by decide, C9_filters_shield_age_coercion sourceColumns [sampleRow1, sampleRow4]
    (by decide)⟩

/-! ### Lemmas about the post-load delete -/

theorem foldl_min_le_init (xs : List Int) (x : Int) : List.foldl min x xs ≤ x := by
  induction xs generalizing x with
  | nil => exact le_refl x
  | cons y ys ih => exact le_trans (ih (min x y)) (min_le_left x y)

theorem foldl_min_le_mem {xs : List Int} {a : Int} (x : Int) (ha : a ∈ xs) :
    List.foldl min x xs ≤ a := by
  induction xs generalizing x with
  | nil => cases ha
  | cons y ys ih =>
    rcases List.mem_cons.mp ha with h | h
    · subst h
      exact le_trans (foldl_min_le_init ys (min x a)) (min_le_right x a)
    · exact ih (min x y) h

theorem foldl_min_mem (xs : List Int) (x : Int) :
    List.foldl min x xs = x ∨ List.foldl min x xs ∈ xs := by
  induction xs generalizing x with
  | nil => exact Or.inl rfl
  | cons y ys ih =>
    rcases ih (min x y) with h | h
    · rcases min_choice x y with hm | hm
      · exact Or.inl (show List.foldl min (min x y) ys = x by rw [h, hm])
      · exact Or.inr (show List.foldl min (min x y) ys ∈ y :: ys by
          rw [h, hm]; exact List.mem_cons_self _ _)
    · exact Or.inr (List.mem_cons_of_mem _ h)

theorem listMin_le {l : List Int} {m a : Int} (hm : listMin l = some m) (ha : a ∈ l) :
    m ≤ a := by
  cases l with
  | nil => cases ha
  | cons x xs =>
    cases hm
    rcases List.mem_cons.mp ha with h | h
    · subst h
      exact foldl_min_le_init xs a
    · exact foldl_min_le_mem x h

theorem listMin_mem {l : List Int} {m : Int} (hm : listMin l = some m) : m ∈ l := by
  cases l with
  | nil => cases hm
  | cons x xs =>
    cases hm
    rcases foldl_min_mem xs x with h | h
    · exact List.mem_cons.mpr (Or.inl h)
    · exact List.mem_cons_of_mem _ h

theorem one_lt_length_of_mem_ne {α : Type} {l : List α} {a b : α}
    (ha : a ∈ l) (hb : b ∈ l) (hne : a ≠ b) : 1 < l.length := by
  cases l with
  | nil => cases ha
  | cons x xs =>
    cases xs with
    | nil =>
      simp only [List.mem_singleton] at ha hb
      exact absurd (ha.trans hb.symm) hne
    | cons y ys =>
      simp only [List.length_cons]
      omega

theorem mem_sameKeyRows_self {t : CaseTable} {a : Int × String} (ha : a ∈ t) :
    a ∈ sameKeyRows t a.2 :=
  List.mem_filter.mpr ⟨ha, by simp⟩

theorem keepCase_false_iff {t : CaseTable} {a : Int × String} (ha : a ∈ t) :
    keepCase t a = false ↔ ∃ b ∈ t, b.2 = a.2 ∧ b.1 < a.1 := by
  have hmem : a ∈ sameKeyRows t a.2 := mem_sameKeyRows_self ha
  have hform : keepCase t a = false ↔
      1 < (sameKeyRows t a.2).length ∧ ¬groupMin t a.2 = some a.1 := by
    simp [keepCase]
  rw [hform]
  constructor
  · rintro ⟨hlen, hmin⟩
    cases hg : (sameKeyRows t a.2).map Prod.fst with
    | nil =>
      exact absurd (List.map_eq_nil_iff.mp hg ▸ hmem) (List.not_mem_nil a)
    | cons x xs =>
      have hsome' : listMin (x :: xs) = some (List.foldl min x xs) := rfl
      have hsome : groupMin t a.2 = some (List.foldl min x xs) := by
        rw [groupMin, hg]
        exact hsome'
      set m := List.foldl min x xs with hm
      have hle : m ≤ a.1 :=
        listMin_le hsome' (hg ▸ List.mem_map_of_mem Prod.fst hmem)
      have hne : m ≠ a.1 := fun he => hmin (he ▸ hsome)
      have hmmem : m ∈ (sameKeyRows t a.2).map Prod.fst :=
        hg ▸ listMin_mem hsome'
      rcases List.mem_map.mp hmmem with ⟨b, hb, hbm⟩
      refine ⟨b, List.mem_of_mem_filter hb, ?_, ?_⟩
      · exact eq_of_beq (List.mem_filter.mp hb).2
      · rw [hbm]
        exact lt_of_le_of_ne hle hne
  · rintro ⟨b, hbt, hbkey, hblt⟩
    have hbg : b ∈ sameKeyRows t a.2 :=
      List.mem_filter.mpr ⟨hbt, beq_iff_eq.mpr hbkey⟩
    have hne : b ≠ a := fun he => absurd (congrArg Prod.fst he) (by omega)
    refine ⟨one_lt_length_of_mem_ne hbg hmem hne, ?_⟩
    intro hmin
    have hle : a.1 ≤ b.1 :=
      listMin_le hmin (List.mem_map_of_mem Prod.fst hbg)
    omega

theorem keepCase_true_iff {t : CaseTable} {a : Int × String} (ha : a ∈ t) :
    keepCase t a = true ↔ ¬∃ b ∈ t, b.2 = a.2 ∧ b.1 < a.1 := by
  rw [← keepCase_false_iff ha]
  cases keepCase t a <;> simp

/-- C5: the post-load cleanup deletes exactly those rows whose
`covid_case_csv_id` is shared with another row and whose `covid_case_id` is
not the minimum of their duplicate group (equivalently: some row of the same
group has a strictly smaller `covid_case_id`); on the table
`[(10,"A"), (11,"A"), (12,"B")]` it deletes only row 11. -/
theorem C5_postload_delete_exactly_nonminimal_dups :
    (∀ (t : CaseTable) (a : Int × String), a ∈ t →
      (a ∉ deleteDupCases t ↔
        (∃ b ∈ t, b ≠ a ∧ b.2 = a.2) ∧ ∃ b ∈ t, b.2 = a.2 ∧ b.1 < a.1)) ∧
      deleteDupCases [((10 : Int), "A"), (11, "A"), (12, "B")] =
        [((10 : Int), "A"), (12, "B")] := by
  constructor
  · intro t a ha
    constructor
    · intro hdel
      have hfalse : keepCase t a = false := by
        cases hkc : keepCase t a with
        | false => rfl
        | true => exact absurd (List.mem_filter.mpr ⟨ha, hkc⟩) hdel
      rcases (keepCase_false_iff ha).mp hfalse with ⟨b, hbt, hbkey, hblt⟩
      have hne : b ≠ a := fun he => absurd (congrArg Prod.fst he) (by omega)
      exact ⟨⟨b, hbt, hne, hbkey⟩, b, hbt, hbkey, hblt⟩
    · rintro ⟨-, b, hbt, hbkey, hblt⟩
      intro hmem
      have htrue : keepCase t a = true := (List.mem_filter.mp hmem).2
      exact (keepCase_true_iff ha).mp htrue ⟨b, hbt, hbkey, hblt⟩
  · decide

/-- Witness for C5: row `(11,"A")` of the sample table is deleted because
row `(10,"A")` shares its key with a smaller surrogate id. -/
theorem C5_postload_delete_exactly_nonminimal_dups_witness :
    (((11 : Int), "A") ∈ [((10 : Int), "A"), (11, "A"), (12, "B")]) ∧
      (((11 : Int), "A") ∉
          deleteDupCases [((10 : Int), "A"), (11, "A"), (12, "B")] ↔
        (∃ b ∈ [((10 : Int), "A"), (11, "A"), (12, "B")],
            b ≠ ((11 : Int), "A") ∧ b.2 = ((11 : Int), "A").2) ∧
          ∃ b ∈ [((10 : Int), "A"), (11, "A"), (12, "B")],
            b.2 = ((11 : Int), "A").2 ∧ b.1 < ((11 : Int), "A").1) :=
  ⟨by decide, C5_postload_delete_exactly_nonminimal_dups.1
    [((10 : Int), "A"), (11, "A"), (12, "B")] ((11 : Int), "A") (by decide)⟩

/-- C8: the post-load duplicate deletion is idempotent: run a second time on
the table its first run produced, it deletes nothing. -/
theorem C8_postload_delete_idempotent (t : CaseTable) :
    deleteDupCases (deleteDupCases t) = deleteDupCases t := by
  apply List.filter_eq_self.mpr
  intro a ha
  have hat : a ∈ t := List.mem_of_mem_filter ha
  have htrue : keepCase t a = true := (List.mem_filter.mp ha).2
  have hno := (keepCase_true_iff hat).mp htrue
  refine (keepCase_true_iff ha).mpr ?_
  rintro ⟨b, hbt, hbkey, hblt⟩
  exact hno ⟨b, List.mem_of_mem_filter hbt, hbkey, hblt⟩

/-- C10 (code bug): `download_from_aws` returns `True` on success and
`False` when the download raises `FileNotFoundError`, but when any other
exception is raised — in particular botocore's `NoCredentialsError` when
credentials are unavailable — the handler itself raises `NameError`,
because `NoCredentialsError` is never imported in `etl.py`; the function
does not return `False` in that case. -/
theorem C10_missing_import_raises_name_error :
    download_from_aws .success = .ok true ∧
      download_from_aws (.raises .fileNotFound) = .ok false ∧
      download_from_aws (.raises .noCredentials) = .error .nameError :=
  ⟨rfl, rfl, rfl⟩

end Etl
